import Mathlib

/-!
Shallow embedding of the toy entity-component system in `src/main.rs`.

Entities are indices into parallel lists of optional component values.
Each Rust system is modelled as a pure function: the list-level body
(`*_list`) transforms the component arrays exactly as the Rust loop does
(`iter_mut().zip(...).filter(...)` semantics, so the traversal is
truncated at the shorter list and non-matching slots are left unchanged),
and a `World`-level wrapper updates the corresponding field.
Randomness is modelled by oracle functions: each call site of
`random::<T>()` reads the next value of an explicit stream.
`isize` becomes `Int`; `usize` becomes `Nat`, with the saturating
arithmetic of `saturating_add_signed` made explicit.
-/

/-- `WIDTH` from the source. -/
def WIDTH : Int := 212
/-- `MIN_X` from the source. -/
def MIN_X : Int := -106
/-- `MAX_X` from the source. -/
def MAX_X : Int := 105

/-- `HEIGHT` from the source. -/
def HEIGHT : Int := 50
/-- `MIN_Y` from the source. -/
def MIN_Y : Int := -25
/-- `MAX_Y` from the source. -/
def MAX_Y : Int := 24

/-- `MAX_HEALTH` from the source (`usize`, so a `Nat`). -/
def MAX_HEALTH : Nat := 10

/-- `usize::MAX` on the 64-bit target the program compiles for. -/
def USIZE_MAX : Nat := 2 ^ 64 - 1

/-- Particle status, as in the source `enum Status`. -/
inductive Status where
  | Dead
  | Low
  | Medium
  | High
deriving DecidableEq, Repr

/-- Rust `v.clamp(lo, hi)` on `isize` (for `lo ≤ hi`). -/
def clampI (lo hi v : Int) : Int := min (max v lo) hi

/-- Rust `x.saturating_add_signed(d)` on `usize`: saturates at `0` below
and at `usize::MAX` above. -/
def saturating_add_signed (x : Nat) (d : Int) : Nat :=
  min ((x + d : Int)).toNat USIZE_MAX

/-- Rust `v.clamp(lo, hi)` on `usize`. -/
def clampN (lo hi x : Nat) : Nat := min (max x lo) hi

/-- The common shape of the `iter_mut().zip(other.iter())` loops: each slot
of the first list paired with the corresponding slot of the second is
replaced by `f`; slots beyond the zip truncation are left unchanged.  Each
system's `f` performs the loop's `filter` by returning the slot unchanged
unless both components are present. -/
def zip_update (f : α → β → α) : List α → List β → List α
  | [], _ => []
  | x :: xs, [] => x :: xs
  | x :: xs, y :: ys => f x y :: zip_update f xs ys

/-- Body of `position_update_system`: for each slot where both position and
velocity are present, `position += velocity` clamped to the grid bounds;
other slots (and slots beyond the zip truncation) are unchanged. -/
def position_update_list
    (ps vs : List (Option (Int × Int))) : List (Option (Int × Int)) :=
  zip_update
    (fun p v =>
      match p, v with
      | some pv, some vv =>
        some (clampI MIN_X MAX_X (pv.1 + vv.1), clampI MIN_Y MAX_Y (pv.2 + vv.2))
      | _, _ => p)
    ps vs

/-- Body of `velocity_update_system`: `velocity += acceleration` where both
present; no clamp. -/
def velocity_update_list
    (vs accs : List (Option (Int × Int))) : List (Option (Int × Int)) :=
  zip_update
    (fun v a =>
      match v, a with
      | some vv, some av => some (vv.1 + av.1, vv.2 + av.2)
      | _, _ => v)
    vs accs

/-- Body of `health_update_system`: where both health and delta are present,
`health = health.saturating_add_signed(delta).clamp(0, MAX_HEALTH)`. -/
def health_update_list (hs : List (Option Nat)) (cs : List (Option Int)) :
    List (Option Nat) :=
  zip_update
    (fun x d =>
      match x, d with
      | some xv, some dv => some (clampN 0 MAX_HEALTH (saturating_add_signed xv dv))
      | _, _ => x)
    hs cs

/-- Body of `alive_system`: for each slot with an alive value present, set it
to `some false` when the zipped health value is absent or zero, else leave
it. -/
def alive_update_list (as_ : List (Option Bool)) (hs : List (Option Nat)) :
    List (Option Bool) :=
  zip_update
    (fun a h =>
      match a with
      | some b => if h = none ∨ h = some 0 then some false else some b
      | none => none)
    as_ hs

/-- The value drawn for one acceleration axis: `match random::<usize>() % 4
{ 0 => 1, 1 => -1, _ => 0 }`. -/
def axis_value (r : Nat) : Int :=
  if r % 4 = 0 then 1 else if r % 4 = 1 then -1 else 0

/-- Body of `acceleration_update_system`: present slots are cleared; absent
slots get a fresh random pair, consuming two draws from the stream `rng`
(the counter `k` is the index of the next unused draw). -/
def acceleration_update_list (rng : Nat → Nat) :
    Nat → List (Option (Int × Int)) → List (Option (Int × Int))
  | _, [] => []
  | k, some _ :: rest => none :: acceleration_update_list rng k rest
  | k, none :: rest =>
    some (axis_value (rng k), axis_value (rng (k + 1))) ::
      acceleration_update_list rng (k + 2) rest

/-- Body of `health_changes_system`: present slots are cleared; absent slots
get `Some(random::<isize>() % 2)` or `Some(-(random::<isize>() % 2))`
depending on a coin flip.  Rust `%` on `isize` truncates toward zero, so it
is `Int.tmod`.  `rb` is the stream of coin flips, `ri` the stream of raw
`isize` draws, `k` the index of the next unused draw. -/
def health_changes_list (rb : Nat → Bool) (ri : Nat → Int) :
    Nat → List (Option Int) → List (Option Int)
  | _, [] => []
  | k, some _ :: rest => none :: health_changes_list rb ri k rest
  | k, none :: rest =>
    (if rb k then some (Int.tmod (ri k) 2) else some (-(Int.tmod (ri k) 2))) ::
      health_changes_list rb ri (k + 1) rest

/-- Health classification written by `component_render_system`'s `match`:
`7.. => High`, `4..=6 => Medium`, `1..=3 => Low`; `0` matches the skip arm,
whose classification value is `Dead` (the cell default). -/
def classify (h : Nat) : Status :=
  if 7 ≤ h then Status.High
  else if 4 ≤ h then Status.Medium
  else if 1 ≤ h then Status.Low
  else Status.Dead

/-- Grid column written for a position: `(x.clamp(MIN_X, MAX_X) + WIDTH / 2)
as usize`. -/
def gridX (px : Int) : Nat := (clampI MIN_X MAX_X px + WIDTH / 2).toNat

/-- Grid row written for a position: `(y.clamp(MIN_Y, MAX_Y) + HEIGHT / 2)
as usize`. -/
def gridY (py : Int) : Nat := (clampI MIN_Y MAX_Y py + HEIGHT / 2).toNat

/-- One iteration of `component_render_system`'s loop: if the slot has a
position, a present-and-true alive flag and a present health, and the health
matches one of the writing arms (`1 ≤ hv`), overwrite the addressed cell. -/
def render_write (c : Nat → Nat → Status) :
    (Option (Int × Int) × Option Bool) × Option Nat → Nat → Nat → Status
  | ((some pos, some true), some hv) =>
    if 1 ≤ hv then
      fun j i => if j = gridY pos.2 ∧ i = gridX pos.1 then classify hv else c j i
    else c
  | _ => c

/-- Body of `component_render_system`: fold the write loop over the zipped
`positions × alives × healths` list, starting from a canvas. -/
def render_list :
    List ((Option (Int × Int) × Option Bool) × Option Nat) →
      (Nat → Nat → Status) → Nat → Nat → Status
  | [], c => c
  | e :: rest, c => render_list rest (render_write c e)

/-- The world state: the component arrays, the canvas and the scalar fields
of the source `struct World` (timing field omitted). -/
structure World where
  running : Bool
  living_entities : Nat
  positions : List (Option (Int × Int))
  velocities : List (Option (Int × Int))
  accelerations : List (Option (Int × Int))
  alives : List (Option Bool)
  healths : List (Option Nat)
  health_changes : List (Option Int)
  canvas : Nat → Nat → Status

/-- The random draws consumed by `World::new`, one oracle per call site,
indexed by entity id: the coin for the clamped position, the raw coordinates
it clamps, the raw `random::<Option<(isize, isize)>>()` of the second
(duplicated) push, the coins for velocity and acceleration presence, and the
raw `usize` whose `% 100` initialises health. -/
structure InitRng where
  posFlag : Nat → Bool
  posXY : Nat → Int × Int
  optPos : Nat → Option (Int × Int)
  velFlag : Nat → Bool
  accFlag : Nat → Bool
  healthVal : Nat → Nat

/-- `World::new(entities)`.  Note the loop body pushes onto `positions`
twice per entity: first the clamped-or-absent value, then a raw random
`Option<(isize, isize)>`. -/
def World.new (rng : InitRng) (entities : Nat) : World where
  running := true
  living_entities := 0
  positions :=
    (List.range entities).flatMap fun id =>
      [if rng.posFlag id then
         some (clampI MIN_X MAX_X (rng.posXY id).1, clampI MIN_Y MAX_Y (rng.posXY id).2)
       else none,
       rng.optPos id]
  velocities := (List.range entities).map fun id => if rng.velFlag id then some (0, 0) else none
  accelerations := (List.range entities).map fun id => if rng.accFlag id then some (0, 0) else none
  alives := (List.range entities).map fun _ => some true
  healths := (List.range entities).map fun id => some (rng.healthVal id % 100)
  health_changes := (List.range entities).map fun _ => none
  canvas := fun _ _ => Status.Dead

/-- `position_update_system`. -/
def position_update_system (w : World) : World :=
  { w with positions := position_update_list w.positions w.velocities }

/-- `velocity_update_system`. -/
def velocity_update_system (w : World) : World :=
  { w with velocities := velocity_update_list w.velocities w.accelerations }

/-- `component_render_system`: rebuilds the whole canvas from scratch
(default `Dead`) and publishes it. -/
def component_render_system (w : World) : World :=
  { w with canvas := render_list ((w.positions.zip w.alives).zip w.healths) fun _ _ => Status.Dead }

/-- `health_update_system`. -/
def health_update_system (w : World) : World :=
  { w with healths := health_update_list w.healths w.health_changes }

/-- `acceleration_update_system`. -/
def acceleration_update_system (rng : Nat → Nat) (w : World) : World :=
  { w with accelerations := acceleration_update_list rng 0 w.accelerations }

/-- `alive_system`. -/
def alive_system (w : World) : World :=
  { w with alives := alive_update_list w.alives w.healths }

/-- `health_changes_system`. -/
def health_changes_system (rb : Nat → Bool) (ri : Nat → Int) (w : World) : World :=
  { w with health_changes := health_changes_list rb ri 0 w.health_changes }

/-- `alive_entities_display_system`: counts slots that are `Some(true)`. -/
def alive_entities_display_system (w : World) : World :=
  { w with living_entities := (w.alives.filter fun v => v.isSome && v.getD false).length }

/-- `user_input_system`: sets `running` to false when a `q` press is polled,
otherwise leaves the world unchanged. -/
def user_input_system (press_q : Bool) (w : World) : World :=
  if press_q then { w with running := false } else w

/-- One record of the final `log_living` dump.  The `alive` field is the
literal `true` the format string prints. -/
structure DumpRec where
  id : Nat
  position : Option (Int × Int)
  velocity : Option (Int × Int)
  acceleration : Option (Int × Int)
  alive : Bool
  health : Option Nat
  health_changes : Option Int
deriving DecidableEq, Repr

/-- The final dump of `main`: `alives.iter().filter(alive-true).enumerate()`
yields `i = 0, 1, …` over the *filtered* sequence, and each record indexes
every component array with that filtered rank `i`. -/
def finalDump (w : World) : List DumpRec :=
  (List.range (w.alives.filter fun v => v.isSome && v.getD false).length).map fun i =>
    { id := i
      position := (w.positions[i]?).getD none
      velocity := (w.velocities[i]?).getD none
      acceleration := (w.accelerations[i]?).getD none
      alive := true
      health := (w.healths[i]?).getD none
      health_changes := (w.health_changes[i]?).getD none }

/-- One scheduling step: the pool may run any of the submitted systems (the
random ones with an arbitrary stream of draws). -/
inductive Step : World → World → Prop where
  | pos_update (w : World) : Step w (position_update_system w)
  | vel_update (w : World) : Step w (velocity_update_system w)
  | render (w : World) : Step w (component_render_system w)
  | health_upd (w : World) : Step w (health_update_system w)
  | accel_update (w : World) (rng : Nat → Nat) : Step w (acceleration_update_system rng w)
  | alive_check (w : World) : Step w (alive_system w)
  | health_chg (w : World) (rb : Nat → Bool) (ri : Nat → Int) :
      Step w (health_changes_system rb ri w)
  | display (w : World) : Step w (alive_entities_display_system w)
  | input (w : World) (b : Bool) : Step w (user_input_system b w)

/-- Reflexive-transitive closure of `Step`: any sequence of system runs. -/
inductive Steps : World → World → Prop where
  | refl (w : World) : Steps w w
  | tail (w₁ w₂ w₃ : World) : Steps w₁ w₂ → Step w₂ w₃ → Steps w₁ w₃

/-- Spec-side description of one loop iteration: the health an entity slot
writes to cell `(j, i)`, if any — it must have a position, a
present-and-true alive flag, a present health matching a writing arm
(`1 ≤ hv`), and its translated coordinates must address the cell. -/
def write_cell (e : (Option (Int × Int) × Option Bool) × Option Nat) (j i : Nat) : Option Nat :=
  match e with
  | ((some pos, some true), some hv) =>
    if 1 ≤ hv ∧ j = gridY pos.2 ∧ i = gridX pos.1 then some hv else none
  | _ => none

/-- Spec-side description of one canvas cell: the health of the last entity
in iteration order that writes to cell `(j, i)`. -/
def last_write :
    List ((Option (Int × Int) × Option Bool) × Option Nat) → Nat → Nat → Option Nat
  | [], _, _ => none
  | e :: rest, j, i =>
    match last_write rest j i with
    | some hv => some hv
    | none => write_cell e j i

/-! ### Concrete inputs used by counterexamples and witnesses -/

/-- A concrete initialization oracle: the duplicated second `positions` push
draws `Some((1000, 1000))`, and the raw health draw is `99`. -/
def cRng1 : InitRng where
  posFlag := fun _ => true
  posXY := fun _ => (0, 0)
  optPos := fun _ => some (1000, 1000)
  velFlag := fun _ => false
  accFlag := fun _ => false
  healthVal := fun _ => 99

/-- A concrete two-entity world: entity 0 is dead, entity 1 is alive, and
the two entities have distinct component values. -/
def w4 : World where
  running := false
  living_entities := 0
  positions := [some (1, 1), some (2, 2)]
  velocities := [none, some (3, 3)]
  accelerations := [none, none]
  alives := [some false, some true]
  healths := [some 5, some 7]
  health_changes := [none, some 1]
  canvas := fun _ _ => Status.Dead

/-- The single record the final dump produces on `w4`: filtered rank `0`,
carrying entity 0's components. -/
def rec0 : DumpRec where
  id := 0
  position := some (1, 1)
  velocity := none
  acceleration := none
  alive := true
  health := some 5
  health_changes := none

/-- A concrete two-entity world where both entities are alive at the same
position, the first with health 9 and the second with health 0. -/
def w5 : World where
  running := true
  living_entities := 0
  positions := [some (0, 0), some (0, 0)]
  velocities := [none, none]
  accelerations := [none, none]
  alives := [some true, some true]
  healths := [some 9, some 0]
  health_changes := [none, none]
  canvas := fun _ _ => Status.Dead

/-- A concrete world with a single dead entity, used to exercise the step
relation. -/
def wDead : World where
  running := true
  living_entities := 0
  positions := [some (0, 0)]
  velocities := [none]
  accelerations := [none]
  alives := [some false]
  healths := [some 3]
  health_changes := [none]
  canvas := fun _ _ => Status.Dead

/-! ### Pointwise characterizations of the list bodies -/

theorem zip_update_length (f : α → β → α) (xs : List α) :
    ∀ ys, (zip_update f xs ys).length = xs.length := by
  induction xs with
  | nil => intro ys; cases ys <;> simp [zip_update]
  | cons x xs ih =>
    intro ys
    cases ys with
    | nil => simp [zip_update]
    | cons y ys => simp [zip_update, ih]

theorem zip_update_getElem? (f : α → β → α) (xs : List α) :
    ∀ (ys : List β) (i : Nat),
      (zip_update f xs ys)[i]? =
        match xs[i]?, ys[i]? with
        | some x, some y => some (f x y)
        | some x, none => some x
        | none, _ => none := by
  induction xs with
  | nil => intro ys i; simp [zip_update]
  | cons x xs ih =>
    intro ys i
    cases ys with
    | nil =>
      rcases h : (x :: xs)[i]? with _ | x' <;> simp [zip_update, h]
    | cons y ys =>
      cases i with
      | zero => simp [zip_update]
      | succ i => simpa [zip_update] using ih ys i

theorem axis_value_cases (r : Nat) :
    axis_value r = -1 ∨ axis_value r = 0 ∨ axis_value r = 1 := by
  unfold axis_value
  split_ifs <;> simp

theorem acceleration_update_list_length (rng : Nat → Nat) (l : List (Option (Int × Int))) :
    ∀ k, (acceleration_update_list rng k l).length = l.length := by
  induction l with
  | nil => intro k; simp [acceleration_update_list]
  | cons hd tl ih =>
    intro k
    cases hd <;> simp [acceleration_update_list, ih]

theorem acceleration_update_list_of_some (rng : Nat → Nat) (l : List (Option (Int × Int))) :
    ∀ (k i : Nat) (v : Int × Int), l[i]? = some (some v) →
      (acceleration_update_list rng k l)[i]? = some none := by
  induction l with
  | nil => intro k i v h; simp at h
  | cons hd tl ih =>
    intro k i v h
    cases hd with
    | none =>
      cases i with
      | zero => simp at h
      | succ i =>
        simp only [List.getElem?_cons_succ] at h
        simpa [acceleration_update_list] using ih (k + 2) i v h
    | some a =>
      cases i with
      | zero => simp [acceleration_update_list]
      | succ i =>
        simp only [List.getElem?_cons_succ] at h
        simpa [acceleration_update_list] using ih k i v h

theorem acceleration_update_list_of_none (rng : Nat → Nat) (l : List (Option (Int × Int))) :
    ∀ (k i : Nat), l[i]? = some none →
      ∃ dx dy, (acceleration_update_list rng k l)[i]? = some (some (dx, dy))
        ∧ (dx = -1 ∨ dx = 0 ∨ dx = 1) ∧ (dy = -1 ∨ dy = 0 ∨ dy = 1) := by
  induction l with
  | nil => intro k i h; simp at h
  | cons hd tl ih =>
    intro k i h
    cases hd with
    | none =>
      cases i with
      | zero =>
        refine ⟨axis_value (rng k), axis_value (rng (k + 1)), ?_,
          axis_value_cases _, axis_value_cases _⟩
        simp [acceleration_update_list]
      | succ i =>
        simp only [List.getElem?_cons_succ] at h
        simpa [acceleration_update_list] using ih (k + 2) i h
    | some a =>
      cases i with
      | zero => simp at h
      | succ i =>
        simp only [List.getElem?_cons_succ] at h
        simpa [acceleration_update_list] using ih k i h

theorem health_changes_list_length (rb : Nat → Bool) (ri : Nat → Int) (l : List (Option Int)) :
    ∀ k, (health_changes_list rb ri k l).length = l.length := by
  induction l with
  | nil => intro k; simp [health_changes_list]
  | cons hd tl ih =>
    intro k
    cases hd <;> simp [health_changes_list, ih]

theorem health_changes_list_of_some (rb : Nat → Bool) (ri : Nat → Int) (l : List (Option Int)) :
    ∀ (k i : Nat) (v : Int), l[i]? = some (some v) →
      (health_changes_list rb ri k l)[i]? = some none := by
  induction l with
  | nil => intro k i v h; simp at h
  | cons hd tl ih =>
    intro k i v h
    cases hd with
    | none =>
      cases i with
      | zero => simp at h
      | succ i =>
        simp only [List.getElem?_cons_succ] at h
        simpa [health_changes_list] using ih (k + 1) i v h
    | some a =>
      cases i with
      | zero => simp [health_changes_list]
      | succ i =>
        simp only [List.getElem?_cons_succ] at h
        simpa [health_changes_list] using ih k i v h

theorem health_changes_list_of_none (rb : Nat → Bool) (ri : Nat → Int) (l : List (Option Int)) :
    ∀ (k i : Nat), l[i]? = some none →
      ∃ d, (health_changes_list rb ri k l)[i]? = some (some d) := by
  induction l with
  | nil => intro k i h; simp at h
  | cons hd tl ih =>
    intro k i h
    cases hd with
    | none =>
      cases i with
      | zero =>
        cases hb : rb k with
        | true => exact ⟨Int.tmod (ri k) 2, by simp [health_changes_list, hb]⟩
        | false => exact ⟨-(Int.tmod (ri k) 2), by simp [health_changes_list, hb]⟩
      | succ i =>
        simp only [List.getElem?_cons_succ] at h
        simpa [health_changes_list] using ih (k + 1) i h
    | some a =>
      cases i with
      | zero => simp at h
      | succ i =>
        simp only [List.getElem?_cons_succ] at h
        simpa [health_changes_list] using ih k i h

theorem alive_update_list_getElem? (as_ : List (Option Bool)) (hs : List (Option Nat)) (i : Nat) :
    (alive_update_list as_ hs)[i]? =
      match as_[i]?, hs[i]? with
      | some (some b), some hv =>
        some (if hv = none ∨ hv = some 0 then some false else some b)
      | some o, _ => some o
      | none, _ => none := by
  rw [alive_update_list, zip_update_getElem?]
  rcases ha : as_[i]? with _ | a
  · rfl
  · rcases hh : hs[i]? with _ | hv
    · rcases a with _ | b <;> rfl
    · rcases a with _ | b <;> rfl

theorem step_preserves_dead {w w' : World} {i : Nat} (st : Step w w')
    (h : w.alives[i]? = some (some false)) : w'.alives[i]? = some (some false) := by
  cases st with
  | pos_update => simpa [position_update_system] using h
  | vel_update => simpa [velocity_update_system] using h
  | render => simpa [component_render_system] using h
  | health_upd => simpa [health_update_system] using h
  | accel_update rng => simpa [acceleration_update_system] using h
  | health_chg rb ri => simpa [health_changes_system] using h
  | display => simpa [alive_entities_display_system] using h
  | input b => cases b <;> simpa [user_input_system] using h
  | alive_check =>
    simp only [alive_system]
    rw [alive_update_list_getElem?, h]
    rcases w.healths[i]? with _ | hv
    · rfl
    · simp

theorem steps_preserve_dead {w w' : World} (st : Steps w w') :
    ∀ (i : Nat), w.alives[i]? = some (some false) → w'.alives[i]? = some (some false) := by
  induction st with
  | refl => exact fun i h => h
  | tail w₂ w₃ hsteps hstep ih => exact fun i h => step_preserves_dead hstep (ih i h)

theorem render_write_eq (c : Nat → Nat → Status)
    (e : (Option (Int × Int) × Option Bool) × Option Nat) (j i : Nat) :
    render_write c e j i =
      match write_cell e j i with
      | some hv => classify hv
      | none => c j i := by
  obtain ⟨⟨p, a⟩, h⟩ := e
  rcases p with _ | pos
  · rfl
  rcases a with _ | b
  · rcases h with _ | hv <;> rfl
  cases b
  · rcases h with _ | hv <;> rfl
  rcases h with _ | hv
  · rfl
  by_cases h1 : 1 ≤ hv
  · by_cases h2 : j = gridY pos.2 ∧ i = gridX pos.1
    · simp [render_write, write_cell, h1, h2]
    · rw [show write_cell ((some pos, some true), some hv) j i = none by
        simp [write_cell, h1]; intro hj hi; exact absurd ⟨hj, hi⟩ h2]
      simp [render_write, h1]
      intro hj hi
      exact absurd ⟨hj, hi⟩ h2
  · simp [render_write, write_cell, h1]

theorem render_list_last_write (l : List ((Option (Int × Int) × Option Bool) × Option Nat)) :
    ∀ (c : Nat → Nat → Status) (j i : Nat),
      render_list l c j i =
        match last_write l j i with
        | some hv => classify hv
        | none => c j i := by
  induction l with
  | nil => intro c j i; rfl
  | cons e rest ih =>
    intro c j i
    rw [render_list, ih, last_write]
    rcases hl : last_write rest j i with _ | hv
    · simpa using render_write_eq c e j i
    · rfl

/-! ### Claims -/

/-- C1 counterexample: immediately after `World::new` (with a concrete
random stream drawing 99 for the raw health), entity 0's health is
`99 % 100 = 99`, strictly above `MAX_HEALTH = 10` — so health is not
clamped to `[0, MAX_HEALTH]` in every reachable state. -/
theorem c1_health_init_counterexample :
    (World.new cRng1 1).healths = [some 99] ∧ MAX_HEALTH < 99 := by decide

/-- C1 (amended): initial health values lie in `[0, 99]` (`random % 100`),
and the health update system writes only values in `[0, MAX_HEALTH]` for
entities with both health and delta present; a health invariant of
`[0, MAX_HEALTH]` holds only for slots the update system has written. -/
theorem c1_health_bounds_amended :
    (∀ (rng : InitRng) (n v : Nat), some v ∈ (World.new rng n).healths → v < 100)
    ∧ (∀ (hs : List (Option Nat)) (cs : List (Option Int)) (i x : Nat) (d : Int),
        hs[i]? = some (some x) → cs[i]? = some (some d) →
        ∃ v, (health_update_list hs cs)[i]? = some (some v) ∧ v ≤ MAX_HEALTH) := by
  constructor
  · intro rng n v hmem
    simp only [World.new, List.mem_map] at hmem
    obtain ⟨id, -, hv⟩ := hmem
    simp only [Option.some_inj] at hv
    exact hv ▸ Nat.mod_lt _ (by norm_num)
  · intro hs cs i x d h1 h2
    refine ⟨clampN 0 MAX_HEALTH (saturating_add_signed x d), ?_, min_le_right _ _⟩
    rw [health_update_list, zip_update_getElem?, h1, h2]

/-- Witness for C1 (amended) at concrete inputs. -/
theorem c1_health_bounds_amended_witness :
    (some 99 ∈ (World.new cRng1 1).healths ∧ 99 < 100)
    ∧ ∃ v, (health_update_list [some 9] [some 3])[0]? = some (some v) ∧ v ≤ MAX_HEALTH :=
  ⟨⟨by decide, c1_health_bounds_amended.1 cRng1 1 99 (by decide)⟩,
   c1_health_bounds_amended.2 [some 9] [some 3] 0 9 3 (by decide) (by decide)⟩

/-- C2: `World::new(n)` pushes onto `positions` twice per entity, so the
positions array has `2 * n` slots while every other component array has
`n` — the identical-length invariant is broken at initialization. -/
theorem c2_component_array_lengths (rng : InitRng) (n : Nat) :
    (World.new rng n).positions.length = 2 * n
    ∧ (World.new rng n).velocities.length = n
    ∧ (World.new rng n).accelerations.length = n
    ∧ (World.new rng n).alives.length = n
    ∧ (World.new rng n).healths.length = n
    ∧ (World.new rng n).health_changes.length = n := by
  refine ⟨?_, by simp [World.new], by simp [World.new], by simp [World.new],
    by simp [World.new], by simp [World.new]⟩
  simp only [World.new, List.length_flatMap]
  induction n with
  | zero => simp
  | succ m ih =>
    simp only [List.range_succ, List.map_append, List.sum_append] at ih ⊢
    simp [ih]
    ring

/-- C3: the second (duplicated) `positions.push` in `World::new` stores a
raw random `Option<(isize, isize)>` without clamping, so with a concrete
random stream the initial state already holds a position `(1000, 1000)`
outside `[MIN_X, MAX_X] × [MIN_Y, MAX_Y]`. -/
theorem c3_position_init_out_of_bounds :
    (World.new cRng1 1).positions[1]? = some (some (1000, 1000))
    ∧ MAX_X < 1000 ∧ MAX_Y < 1000 := by decide

/-- C4: on a world whose entity 0 is dead and entity 1 alive, the final
dump emits exactly one record, but because `enumerate()` follows
`filter(...)` the record's index is the filtered rank 0, and all component
arrays are indexed with that rank — so the record carries entity 0's
components (a dead entity) instead of the alive entity 1's. -/
theorem c4_final_dump_mismatch :
    finalDump w4 = [rec0]
    ∧ rec0.id = 0
    ∧ w4.alives[0]? = some (some false)
    ∧ w4.alives[1]? = some (some true)
    ∧ rec0.position = (w4.positions[0]?).getD none
    ∧ w4.positions[0]? ≠ w4.positions[1]? := by decide

/-- C5 counterexample: in `w5` two alive entities share cell `(25, 106)`;
the last one in iteration order has health 0, whose health-threshold
classification is `Dead`, yet the rendered cell is `High` from the earlier
entity — the zero-health arm writes nothing instead of `Dead`. -/
theorem c5_canvas_counterexample :
    (component_render_system w5).canvas 25 106 = Status.High
    ∧ gridY 0 = 25 ∧ gridX 0 = 106
    ∧ w5.positions[1]? = some (some (0, 0))
    ∧ w5.alives[1]? = some (some true)
    ∧ w5.healths[1]? = some (some 0)
    ∧ classify 0 = Status.Dead
    ∧ Status.High ≠ Status.Dead := by decide

/-- C5 (amended): after the render system runs, each canvas cell equals
the classification of the last entity in iteration order with position
present, alive present-and-true and *nonzero* health present mapping to
that cell; a cell to which no such entity writes is `Dead` (in particular a
zero-health entity never writes, not even `Dead`). -/
theorem c5_canvas_faithfulness_amended (w : World) (j i : Nat) :
    (component_render_system w).canvas j i =
      match last_write ((w.positions.zip w.alives).zip w.healths) j i with
      | some hv => classify hv
      | none => Status.Dead :=
  render_list_last_write _ _ j i

/-- C6: one run of the alive system maps each slot with a present alive
value to `Some(false)` when the health value is absent or zero and leaves
it unchanged otherwise (slots without an alive value, or beyond the zip
truncation, are untouched); and along any sequence of system steps, an
alive flag equal to `Some(false)` is never set back to `Some(true)`. -/
theorem c6_alive_monotone :
    (∀ (as_ : List (Option Bool)) (hs : List (Option Nat)) (i : Nat),
      (alive_update_list as_ hs)[i]? =
        match as_[i]?, hs[i]? with
        | some (some b), some hv =>
          some (if hv = none ∨ hv = some 0 then some false else some b)
        | some o, _ => some o
        | none, _ => none)
    ∧ (∀ (w w' : World) (i : Nat), Steps w w' →
        w.alives[i]? = some (some false) → w'.alives[i]? = some (some false)) :=
  ⟨alive_update_list_getElem?, fun _ _ i st h => steps_preserve_dead st i h⟩

/-- Witness for C6 at concrete inputs: a live entity with zero health dies
in one run, and a dead entity stays dead across a step. -/
theorem c6_alive_monotone_witness :
    (alive_update_list [some true] [some 0])[0]? = some (some false)
    ∧ (alive_system wDead).alives[0]? = some (some false) := by
  constructor
  · have h := c6_alive_monotone.1 [some true] [some 0] 0
    simpa using h
  · exact c6_alive_monotone.2 wDead (alive_system wDead) 0
      (Steps.tail _ _ _ (Steps.refl _) (Step.alive_check _)) (by decide)

/-- C7: one run of the position update system sets each slot with both
position and velocity present to position + velocity clamped to the grid
bounds, leaves every slot missing either component (or beyond the zip
truncation) exactly unchanged — in particular an absent position stays
absent — and preserves the array length. -/
theorem c7_position_update_correct (ps vs : List (Option (Int × Int))) (i : Nat) :
    (position_update_list ps vs).length = ps.length
    ∧ (∀ (pv vv : Int × Int), ps[i]? = some (some pv) → vs[i]? = some (some vv) →
        (position_update_list ps vs)[i]? =
          some (some (clampI MIN_X MAX_X (pv.1 + vv.1), clampI MIN_Y MAX_Y (pv.2 + vv.2))))
    ∧ (ps[i]? = some none ∨ vs[i]? = some none ∨ vs.length ≤ i →
        (position_update_list ps vs)[i]? = ps[i]?) := by
  refine ⟨zip_update_length _ _ _, ?_, ?_⟩
  · intro pv vv h1 h2
    rw [position_update_list, zip_update_getElem?, h1, h2]
  · intro h
    rw [position_update_list, zip_update_getElem?]
    rcases h with h | h | h
    · rw [h]
      rcases vs[i]? with _ | v
      · rfl
      · rcases v with _ | vv <;> rfl
    · rw [h]
      rcases hp : ps[i]? with _ | p
      · rfl
      · rcases p with _ | pv <;> rfl
    · rw [List.getElem?_eq_none h]
      rcases hp : ps[i]? with _ | p <;> rfl

/-- Witness for C7 at concrete inputs: a slot with both components present
is updated and clamped, a slot with an absent position stays absent. -/
theorem c7_position_update_correct_witness :
    (position_update_list [some (3, 3), none] [some (1, 1), some (2, 2)])[0]? =
      some (some (clampI MIN_X MAX_X ((3 : Int) + 1), clampI MIN_Y MAX_Y ((3 : Int) + 1)))
    ∧ (position_update_list [some (3, 3), none] [some (1, 1), some (2, 2)])[1]? = some none :=
  ⟨(c7_position_update_correct _ _ 0).2.1 (3, 3) (1, 1) (by decide) (by decide),
   (c7_position_update_correct _ _ 1).2.2 (Or.inl (by decide))⟩

/-- C8: one run of the health update system sets each slot with both health
and delta present to `saturating_add_signed` of the two clamped to
`[0, MAX_HEALTH]` — hence at most `MAX_HEALTH` — leaves every slot missing
either component unchanged, and preserves the array length. -/
theorem c8_health_update_correct (hs : List (Option Nat)) (cs : List (Option Int)) (i : Nat) :
    (health_update_list hs cs).length = hs.length
    ∧ (∀ (x : Nat) (d : Int), hs[i]? = some (some x) → cs[i]? = some (some d) →
        (health_update_list hs cs)[i]? =
          some (some (clampN 0 MAX_HEALTH (saturating_add_signed x d))))
    ∧ (hs[i]? = some none ∨ cs[i]? = some none ∨ cs.length ≤ i →
        (health_update_list hs cs)[i]? = hs[i]?)
    ∧ (∀ (x : Nat) (d : Int), clampN 0 MAX_HEALTH (saturating_add_signed x d) ≤ MAX_HEALTH) := by
  refine ⟨zip_update_length _ _ _, ?_, ?_, ?_⟩
  · intro x d h1 h2
    rw [health_update_list, zip_update_getElem?, h1, h2]
  · intro h
    rw [health_update_list, zip_update_getElem?]
    rcases h with h | h | h
    · rw [h]
      rcases cs[i]? with _ | d
      · rfl
      · rcases d with _ | dv <;> rfl
    · rw [h]
      rcases hp : hs[i]? with _ | x
      · rfl
      · rcases x with _ | xv <;> rfl
    · rw [List.getElem?_eq_none h]
      rcases hp : hs[i]? with _ | x <;> rfl
  · intro x d
    exact min_le_right _ _

/-- Witness for C8 at concrete inputs: `9 + 3` is clamped to
`MAX_HEALTH`, and a slot with absent health is unchanged. -/
theorem c8_health_update_correct_witness :
    (health_update_list [some 9] [some 3])[0]? =
      some (some (clampN 0 MAX_HEALTH (saturating_add_signed 9 3)))
    ∧ (health_update_list [none] [some 1])[0]? = some none
    ∧ clampN 0 MAX_HEALTH (saturating_add_signed 9 3) ≤ MAX_HEALTH :=
  ⟨(c8_health_update_correct [some 9] [some 3] 0).2.1 9 3 (by decide) (by decide),
   (c8_health_update_correct [none] [some 1] 0).2.2.1 (Or.inl (by decide)),
   (c8_health_update_correct [] [] 0).2.2.2 9 3⟩

/-- C9: one run of the acceleration update system (respectively the health
changes system) clears every present slot and fills every absent slot with
a fresh value — for acceleration a pair with each axis in `{-1, 0, 1}` —
so a slot present before a run is absent after it and present again
(freshly randomized) after a second run; both systems preserve length. -/
theorem c9_toggle_period_two (rng rng2 : Nat → Nat) (rb rb2 : Nat → Bool) (ri ri2 : Nat → Int)
    (accs : List (Option (Int × Int))) (hcs : List (Option Int)) (i : Nat) :
    (acceleration_update_list rng 0 accs).length = accs.length
    ∧ (health_changes_list rb ri 0 hcs).length = hcs.length
    ∧ (∀ (v : Int × Int), accs[i]? = some (some v) →
        (acceleration_update_list rng 0 accs)[i]? = some none)
    ∧ (accs[i]? = some none → ∃ dx dy,
        (acceleration_update_list rng 0 accs)[i]? = some (some (dx, dy))
        ∧ (dx = -1 ∨ dx = 0 ∨ dx = 1) ∧ (dy = -1 ∨ dy = 0 ∨ dy = 1))
    ∧ (∀ (v : Int × Int), accs[i]? = some (some v) → ∃ dx dy,
        (acceleration_update_list rng2 0 (acceleration_update_list rng 0 accs))[i]? =
          some (some (dx, dy))
        ∧ (dx = -1 ∨ dx = 0 ∨ dx = 1) ∧ (dy = -1 ∨ dy = 0 ∨ dy = 1))
    ∧ (∀ (v : Int), hcs[i]? = some (some v) →
        (health_changes_list rb ri 0 hcs)[i]? = some none)
    ∧ (hcs[i]? = some none → ∃ d, (health_changes_list rb ri 0 hcs)[i]? = some (some d))
    ∧ (∀ (v : Int), hcs[i]? = some (some v) → ∃ d,
        (health_changes_list rb2 ri2 0 (health_changes_list rb ri 0 hcs))[i]? =
          some (some d)) := by
  refine ⟨acceleration_update_list_length rng accs 0, health_changes_list_length rb ri hcs 0,
    ?_, ?_, ?_, ?_, ?_, ?_⟩
  · exact fun v h => acceleration_update_list_of_some rng accs 0 i v h
  · exact fun h => acceleration_update_list_of_none rng accs 0 i h
  · exact fun v h => acceleration_update_list_of_none rng2 _ 0 i
      (acceleration_update_list_of_some rng accs 0 i v h)
  · exact fun v h => health_changes_list_of_some rb ri hcs 0 i v h
  · exact fun h => health_changes_list_of_none rb ri hcs 0 i h
  · exact fun v h => health_changes_list_of_none rb2 ri2 _ 0 i
      (health_changes_list_of_some rb ri hcs 0 i v h)

/-- Witness for C9 at concrete inputs: present slots clear in one run and
are repopulated in a second; absent slots are populated in one run. -/
theorem c9_toggle_period_two_witness :
    (acceleration_update_list (fun _ => 0) 0 [some (1, 1)])[0]? = some none
    ∧ (∃ dx dy, (acceleration_update_list (fun _ => 0) 0 [none])[0]? = some (some (dx, dy))
        ∧ (dx = -1 ∨ dx = 0 ∨ dx = 1) ∧ (dy = -1 ∨ dy = 0 ∨ dy = 1))
    ∧ (∃ dx dy, (acceleration_update_list (fun _ => 1) 0
          (acceleration_update_list (fun _ => 0) 0 [some (1, 1)]))[0]? = some (some (dx, dy))
        ∧ (dx = -1 ∨ dx = 0 ∨ dx = 1) ∧ (dy = -1 ∨ dy = 0 ∨ dy = 1))
    ∧ (health_changes_list (fun _ => true) (fun _ => 3) 0 [some 2])[0]? = some none
    ∧ (∃ d, (health_changes_list (fun _ => true) (fun _ => 3) 0 [none])[0]? = some (some d))
    ∧ (∃ d, (health_changes_list (fun _ => false) (fun _ => 1) 0
          (health_changes_list (fun _ => true) (fun _ => 3) 0 [some 2]))[0]? = some (some d)) := by
  refine ⟨?_, ?_, ?_, ?_, ?_, ?_⟩
  · exact (c9_toggle_period_two (fun _ => 0) (fun _ => 1) (fun _ => true) (fun _ => false)
      (fun _ => 3) (fun _ => 1) [some (1, 1)] [some 2] 0).2.2.1 (1, 1) (by decide)
  · exact (c9_toggle_period_two (fun _ => 0) (fun _ => 1) (fun _ => true) (fun _ => false)
      (fun _ => 3) (fun _ => 1) [none] [none] 0).2.2.2.1 (by decide)
  · exact (c9_toggle_period_two (fun _ => 0) (fun _ => 1) (fun _ => true) (fun _ => false)
      (fun _ => 3) (fun _ => 1) [some (1, 1)] [some 2] 0).2.2.2.2.1 (1, 1) (by decide)
  · exact (c9_toggle_period_two (fun _ => 0) (fun _ => 1) (fun _ => true) (fun _ => false)
      (fun _ => 3) (fun _ => 1) [some (1, 1)] [some 2] 0).2.2.2.2.2.1 2 (by decide)
  · exact (c9_toggle_period_two (fun _ => 0) (fun _ => 1) (fun _ => true) (fun _ => false)
      (fun _ => 3) (fun _ => 1) [none] [none] 0).2.2.2.2.2.2.1 (by decide)
  · exact (c9_toggle_period_two (fun _ => 0) (fun _ => 1) (fun _ => true) (fun _ => false)
      (fun _ => 3) (fun _ => 1) [some (1, 1)] [some 2] 0).2.2.2.2.2.2.2 2 (by decide)
